import Mathlib

/-
  Verification development for the object-to-html repository
  (basic-formatting-utils): a recursive value-to-HTML-table renderer.

  The JavaScript values handled by the renderer are shallowly embedded as
  the inductive type `Value`; the library functions of the main variant
  (the bfu library: typeOf, sizeOf, isExpandable, the as_* element
  builders, make_table_rows_from_obj, make_table_row_from_prop,
  render_value, create_content, show_object) are translated into Lean
  definitions keeping their source names.  The TypeScript entry point
  (dumpableError, objectToHtml) and the older lib.js variant's
  create_content are embedded as well.

  Modelling conventions:
  * JS strings are Lean `String`s; `toLowerCase` is modelled characterwise
    by `jsToLower`.
  * JS numbers are modelled as `Int` (plus a separate `vNaN` constructor);
    the configuration setter, which accepts arbitrary numerics, uses `Rat`.
  * A JS value that may be `null`/`undefined` where a string is consumed is
    modelled as `Option String`: `none` stands for null/undefined, which
    `Array.prototype.join` renders as "" and which makes an HTML element
    builder omit its content and closing tag.
  * Template-literal interpolation of a value is modelled by
    `displayString` (functions interpolate to their stored source text,
    arrays to their comma-joined elements, plain objects to
    "[object Object]").
  * Host objects such as NodeJS `process` and `global`, which report their
    own name as their type tag, are modelled by the constructor `vHost`.
-/

namespace BFU

/-- Runtime JavaScript values, as the renderer distinguishes them. -/
inductive Value where
  | vNull
  | vUndefined
  | vBool (b : Bool)
  | vNum (n : Int)
  | vNaN
  | vBigInt (n : Int)
  | vStr (s : String)
  | vSymbol (desc : String)
  | vFn (src : String)
  | vGenFn (src : String)
  | vArr (elems : List Value)
  | vSet (elems : List Value)
  | vMap (entries : List (Value × Value))
  | vObj (props : List (String × Value))
  | vHost (tag : String) (props : List (String × Value))

open Value

-- Discover what data type the object itself thinks it has:
-- Object.prototype.toString.apply(x).slice(8).slice(0, -1)
def typeOf : Value → String
  | vNull => "Null"
  | vUndefined => "Undefined"
  | vBool _ => "Boolean"
  | vNum _ => "Number"
  | vNaN => "Number"
  | vBigInt _ => "BigInt"
  | vStr _ => "String"
  | vSymbol _ => "Symbol"
  | vFn _ => "Function"
  | vGenFn _ => "GeneratorFunction"
  | vArr _ => "Array"
  | vSet _ => "Set"
  | vMap _ => "Map"
  | vObj _ => "Object"
  | vHost tag _ => tag

-- Partial application pattern of the source: isOfType(target)(x)
def isOfType (targetType : String) (someObject : Value) : Bool :=
  typeOf someObject = targetType

def isNull      : Value → Bool := isOfType "Null"
def isUndefined : Value → Bool := isOfType "Undefined"
def isNumber    : Value → Bool := isOfType "Number"
def isBigInt    : Value → Bool := isOfType "BigInt"
def isSymbol    : Value → Bool := isOfType "Symbol"
def isArray     : Value → Bool := isOfType "Array"
def isMap       : Value → Bool := isOfType "Map"
def isSet       : Value → Bool := isOfType "Set"
def isFn        : Value → Bool := isOfType "Function"
def isGenFn     : Value → Bool := isOfType "GeneratorFunction"
def isJsObject  : Value → Bool := isOfType "Object"

-- NodeJS 'global' and 'process' report their own names as their type
def isNodeJsProcess : Value → Bool := isOfType "process"
def isNodeJsGlobal  : Value → Bool := isOfType "global"

def isNullOrUndef (x : Value) : Bool := isNull x || isUndefined x
def isNumeric     (x : Value) : Bool := isNumber x || isBigInt x
def isFunction    (x : Value) : Bool := isFn x || isGenFn x
def isObject      (x : Value) : Bool := isJsObject x || isNodeJsProcess x || isNodeJsGlobal x

-- The size functions stored in expandableTypesMap.  Each is applied by the
-- source only to a value whose type tag matches its key (x.length for
-- "Array", x.size for "Map"/"Set", Object.keys(x).length for the rest);
-- off-tag inputs are given the junk result 0.
def jsLength : Value → Nat
  | vArr es => es.length
  | _ => 0

def jsSize : Value → Nat
  | vMap es => es.length
  | vSet es => es.length
  | _ => 0

def objKeysLength : Value → Nat
  | vObj ps => ps.length
  | vHost _ ps => ps.length
  | _ => 0

-- A map of data types that are considered expandable together with the
-- functions returning the number of enumerable properties or elements
def expandableTypesMap : List (String × (Value → Nat)) :=
  [ ("Array",   jsLength)
  , ("Map",     jsSize)
  , ("Set",     jsSize)
  , ("Object",  objKeysLength)
  , ("process", objKeysLength)
  , ("global",  objKeysLength) ]

def isExpandable (x : Value) : Bool :=
  (expandableTypesMap.find? (fun e => e.1 = typeOf x)).isSome

-- Proxy wrapper default: an absent key yields the function () => 0
def sizeOf (obj : Value) : Nat :=
  (((expandableTypesMap.find? (fun e => e.1 = typeOf obj)).map (fun e => e.2)).getD
    (fun _ => 0)) obj

-- Map of column headings per expandable data type; proxy default "Property"
def columnHeadingMap : List (String × String) :=
  [("Array", "Index"), ("Map", "Key"), ("Set", "Key")]

def columnHeadings (key : String) : String :=
  (((columnHeadingMap.find? (fun e => e.1 = key)).map (fun e => e.2)).getD "Property")

-- Characterwise model of String.prototype.toLowerCase()
def jsToLower (s : String) : String :=
  String.mk (s.data.map Char.toLower)

-- Template-literal interpolation of a JS value.  An array interpolates to
-- its comma-joined elements (null/undefined elements become "");
-- a function interpolates to its source text; a symbol is modelled by its
-- String(...) form.
mutual

def displayString : Value → String
  | vNull => "null"
  | vUndefined => "undefined"
  | vBool b => cond b "true" "false"
  | vNum n => toString n
  | vNaN => "NaN"
  | vBigInt n => toString n
  | vStr s => s
  | vSymbol desc => "Symbol(" ++ desc ++ ")"
  | vFn src => src
  | vGenFn src => src
  | vArr es => arrJoinStr es
  | vSet _ => "[object Set]"
  | vMap _ => "[object Map]"
  | vObj _ => "[object Object]"
  | vHost tag _ => "[object " ++ tag ++ "]"
termination_by v => 3 * SizeOf.sizeOf v

def arrJoinStr : List Value → String
  | [] => ""
  | [v] => arrElemStr v
  | v :: rest => arrElemStr v ++ "," ++ arrJoinStr rest
termination_by l => 3 * SizeOf.sizeOf l + 1

def arrElemStr (v : Value) : String :=
  if isNullOrUndef v then "" else displayString v
termination_by 3 * SizeOf.sizeOf v + 2

end

-- The raw JS value as consumed by an HTML element builder: none models
-- null/undefined; any other value contributes its interpolated form.
def jsVal (v : Value) : Option String :=
  if isNullOrUndef v then none else some (displayString v)

-- ********************************************************************
-- Generate HTML elements

-- None of these HTML elements require a closing tag
def emptyElements : List String :=
  [ "area", "base", "basefont", "br"
  , "col", "frame", "hr", "img"
  , "input", "isindex", "link", "meta"
  , "param", "command", "keygen", "source" ]

def isEmptyElement (tag_name : String) : Bool :=
  emptyElements.contains tag_name

-- Generate an opening HTML tag (the props array is never null here,
-- so only the emptiness test of the source remains)
def make_tag (tag_name : String) (props_array : List String) : String :=
  "<" ++ tag_name ++
    (if props_array.length = 0 then "" else " " ++ String.intercalate " " props_array) ++
    ">"

-- Generic element generator; content that is null/undefined (none) is
-- dropped together with the closing tag, as in the source
def as_html_el (tag_name : String) (propsArray : List String) (val : Option String) : String :=
  make_tag tag_name propsArray ++
    (if isEmptyElement tag_name || val.isNone then ""
     else val.getD "" ++ "</" ++ tag_name ++ ">")

def as_button : List String → Option String → String := as_html_el "button"
def as_div    : List String → Option String → String := as_html_el "div"
def as_h2     : List String → Option String → String := as_html_el "h2"
def as_img    : List String → Option String → String := as_html_el "img"
def as_script : List String → Option String → String := as_html_el "script"
def as_style  : List String → Option String → String := as_html_el "style"
def as_table  : List String → Option String → String := as_html_el "table"
def as_td     : List String → Option String → String := as_html_el "td"
def as_th     : List String → Option String → String := as_html_el "th"
def as_tr     : List String → Option String → String := as_html_el "tr"

end BFU

namespace BFU

open Value

/-- Process-wide rendering configuration of the bfu library: the recursion
depth limit (source default 3) and the function-suppression flag (source
default true).  The source keeps these in mutable module globals; the
embedding threads them explicitly. -/
structure Config where
  depth_limit : Nat
  suppress_fns : Bool

-- Node Namer: `${parent_name}-${prop_name}`.toLowerCase(), where prop_name
-- has already been interpolated to its string form
def childId (parentId : String) (key : String) : String :=
  jsToLower (parentId ++ "-" ++ key)

-- Header row of an NTV (Name, Type, Value) table; a key-only container
-- (a Set) gets no Type and Value column headers
def make_table_hdr_row (col1_txt : String) (depth : Nat) (keyOnly : Bool) : String :=
  if keyOnly then
    as_tr [] (some (as_th ["class=\x27bfu-th\x27"] (some col1_txt)))
  else
    as_tr [] (some
      (as_th ["class=\x27bfu-th\x27"] (some col1_txt) ++
       as_th ["class=\x27bfu-th\x27"] (some "Type") ++
       as_th ["class=\x27bfu-th\x27"] (some ("Value (depth=" ++ toString depth ++ ")"))))

def empty_placeholder (obj : Value) : String :=
  if isArray obj then "[]" else "\x7b\x7d"

def suppressed_placeholder (obj : Value) : String :=
  if isArray obj then "[...]" else "\x7b...\x7d"

-- Expand/collapse affordance (the icon img carries no src; that is added
-- client-side)
def arrow_right_icon_name : String := "bfu-arrow-right-icon"
def arrow_down_icon_name : String := "bfu-arrow-down-icon"

def arrow_right : String := as_img ["name=\x27" ++ arrow_right_icon_name ++ "\x27"] none
def arrow_down  : String := as_img ["name=\x27" ++ arrow_down_icon_name ++ "\x27"] none

def arrow_content (obj_type arrow_type : String) : String :=
  obj_type ++ as_button ["type=\x27button\x27"] (some arrow_type)

def arrow_properties (name direction action : String) (hidden : Bool) : List String :=
  [ "class=\x27bfu-arrow-" ++ direction ++ "\x27"
  , "id=\x27" ++ name ++ "-arrow-" ++ direction ++ "\x27"
  , "onclick=\"" ++ action ++ "(\x27" ++ name ++ "\x27)\""
  , if hidden then "style=\x27display:none\x27" else "" ]

def expand_button_div (obj_name obj_type : String) : String :=
  as_div (arrow_properties obj_name "right" "expand" false) (some (arrow_content obj_type arrow_right))

def collapse_button_div (obj_name obj_type : String) : String :=
  as_div (arrow_properties obj_name "down" "collapse" true) (some (arrow_content obj_type arrow_down))

-- Place table rows into a table, then into a collapsible DIV; nested
-- tables (depth > 0) start hidden
def make_collapsible_div (div_name : String) (table_rows : String) (depth : Nat) : String :=
  as_div ["id=\"" ++ div_name ++ "-content\"", if depth = 0 then "" else "style=\x27display:none\x27"]
    (some (as_table ["class=\x27bfu-table\x27"] (some table_rows)))

-- A row that came back null (a suppressed function) contributes "" when
-- the row array is joined, exactly as Array.prototype.join treats null
def joinRows (rows : List (Option String)) : String :=
  String.join (rows.map (fun r => r.getD ""))

-- Comparator used for Object.keys(obj).sort(): default lexicographic
-- string order on the property keys
def propLe (a b : String × Value) : Bool := a.1 ≤ b.1

-- Size bound used by the termination argument of the renderer
theorem sizeOf_snd_lt_of_mem_pairs {α β : Type} [SizeOf α] [SizeOf β] {p : α × β}
    {ps : List (α × β)} (h : p ∈ ps) : SizeOf.sizeOf p.2 < SizeOf.sizeOf ps := by
  have h1 := List.sizeOf_lt_of_mem h
  obtain ⟨a, b⟩ := p
  simp only [Prod.mk.sizeOf_spec] at h1
  show SizeOf.sizeOf b < SizeOf.sizeOf ps
  omega

mutual

-- Transform an iterable object into the string of its TR elements.
-- Dispatch follows the source: isArray, then isObject (which also accepts
-- the process/global host tags), then isMap, then isSet.  A vHost value
-- reaches the object arm only with an object-like tag, since any other
-- host tag has sizeOf 0.
def make_table_rows_from_obj (cfg : Config) (obj_name : String) (obj : Value)
    (col1txt : String) (depth : Nat) : String :=
  if sizeOf obj > 0 then
    make_table_hdr_row col1txt depth (isSet obj) ++
    (match obj with
     | vArr es =>
         joinRows (es.enum.attach.map (fun p =>
           make_table_row_from_prop cfg obj_name (vNum p.1.1) p.1.2 depth false))
     | vObj ps =>
         joinRows ((ps.mergeSort propLe).attach.map (fun p =>
           make_table_row_from_prop cfg obj_name (vStr p.1.1) p.1.2 depth false))
     | vHost _ ps =>
         joinRows ((ps.mergeSort propLe).attach.map (fun p =>
           make_table_row_from_prop cfg obj_name (vStr p.1.1) p.1.2 depth false))
     | vMap es =>
         joinRows (es.attach.map (fun p =>
           make_table_row_from_prop cfg obj_name p.1.1 p.1.2 depth false))
     | vSet es =>
         joinRows (es.attach.map (fun p =>
           make_table_row_from_prop cfg obj_name p.1 vNull depth true))
     | _ => "")
  else
    empty_placeholder obj
termination_by 3 * SizeOf.sizeOf obj
decreasing_by
all_goals simp_wf
· have := List.sizeOf_lt_of_mem (List.snd_mem_of_mem_enum p.2)
  omega
· have := sizeOf_snd_lt_of_mem_pairs (List.mem_mergeSort.mp p.2)
  omega
· have := sizeOf_snd_lt_of_mem_pairs (List.mem_mergeSort.mp p.2)
  omega
· have := sizeOf_snd_lt_of_mem_pairs p.2
  omega
· have := List.sizeOf_lt_of_mem p.2
  omega

-- Generate a single table row for an object property, array element, map
-- entry or set element.  The keyOnly flag is set when the container stores
-- only keys (a Set).  A suppressed function yields null (none).
def make_table_row_from_prop (cfg : Config) (parent_name : String) (prop_name : Value)
    (prop_value : Value) (depth : Nat) (keyOnly : Bool) : Option String :=
  let this_prop_name := childId parent_name (displayString prop_name)
  let this_el_type := typeOf prop_value
  if cfg.suppress_fns && isFunction prop_value then
    none
  else
    let type_col :=
      if isExpandable prop_value && sizeOf prop_value > 0 && depth < cfg.depth_limit then
        expand_button_div this_prop_name this_el_type ++ collapse_button_div this_prop_name this_el_type
      else
        this_el_type
    let value_col : Option String :=
      if isExpandable prop_value then
        if sizeOf prop_value > 0 then
          if depth < cfg.depth_limit then
            render_value cfg prop_value this_prop_name (depth + 1)
          else
            some (suppressed_placeholder prop_value)
        else
          some (empty_placeholder prop_value)
      else
        render_value cfg prop_value this_prop_name (depth + 1)
    some (as_tr [] (some
      (as_td ["class=\x27bfu-td\x27"] (jsVal prop_name) ++
       (if keyOnly then ""
        else as_td ["class=\x27bfu-td\x27"] (some type_col) ++
             as_td ["class=\x27bfu-td\x27"] value_col))))
termination_by 3 * SizeOf.sizeOf prop_value + 2
decreasing_by
all_goals simp_wf

-- Transform the current value into its HTML representation: a collapsible
-- table if expandable, the literal suppression text for a function, the
-- raw value otherwise
def render_value (cfg : Config) (enum_arg : Value) (enum_name : String) (depth : Nat) :
    Option String :=
  if isExpandable enum_arg then
    some (make_collapsible_div enum_name
      (make_table_rows_from_obj cfg enum_name enum_arg (columnHeadings (typeOf enum_arg)) depth)
      depth)
  else if isFunction enum_arg then
    some "Source code suppressed"
  else
    jsVal enum_arg
termination_by 3 * SizeOf.sizeOf enum_arg + 1
decreasing_by
all_goals simp_wf

end

end BFU

namespace BFU

open Value

-- ********************************************************************
-- Content Assembler (bfu variant)

/-- File contents read by the library at load time (the stylesheet, the
Base64 image-injection script and the expand/collapse client script).
These are data files of the package, not code under verification; the
embedding passes them through as parameters. -/
structure Assets where
  bfu_style : String
  image_src_data : String
  expand_collapse_js : String

-- Model of hdr.replace(/\s+/g, "-"): every maximal run of whitespace
-- becomes a single dash.  The flag records whether the previous character
-- belonged to a whitespace run already replaced.
def dashWsAux : Bool → List Char → List Char
  | _, [] => []
  | prevWs, c :: rest =>
      if c.isWhitespace then
        (if prevWs then [] else ['-']) ++ dashWsAux true rest
      else
        c :: dashWsAux false rest

def replace_ws (s : String) : String :=
  String.mk (dashWsAux false s.data)

-- Create a content DIV containing a header and an object table; the id of
-- the collapsible DIV is the header with whitespace dashed, lowercased
def create_content_table (cfg : Config) (hdr : String) (obj : Value) : String :=
  let obj_name := jsToLower (replace_ws hdr)
  as_div ["class=\x27bfu-content\x27"]
    (some (as_h2 ["class=\x27bfu-header2\x27"] (some hdr) ++
           (render_value cfg obj obj_name 0).getD ""))

-- Wrap the titled objects in a DIV together with the style sheet and the
-- client scripts; an absent or empty list yields the placeholder DIV.
-- The input is `none` when the argument is missing or not an array.
def create_content (cfg : Config) (assets : Assets)
    (tvArray : Option (List (String × Value))) : String :=
  match tvArray with
  | some l =>
      if l.length > 0 then
        as_div []
          (some (as_style [] (some assets.bfu_style) ++
                 String.join (l.map (fun el =>
                   create_content_table cfg
                     (el.1 ++ (if cfg.suppress_fns then " (Functions suppressed)" else ""))
                     el.2)) ++
                 as_script [] (some assets.image_src_data) ++
                 as_script ["type=\x27text/javascript\x27"] (some assets.expand_collapse_js)))
      else
        as_div [] (some "Nothing to see here.  Move along...")
  | none => as_div [] (some "Nothing to see here.  Move along...")

def show_object (cfg : Config) (assets : Assets) (title : String) (val : Value) : String :=
  create_content cfg assets (some [(title, val)])

-- ********************************************************************
-- TypeScript entry point (src/index.ts)

/-- Options record of the TypeScript entry point.  Only `title` is ever
read by `objectToHtml`. -/
structure FormatOptions where
  title : String
  includeJavaScript : Bool
  hideFunctions : Bool
  depthLimit : Int

-- JS truthiness of a value
def truthy : Value → Bool
  | vNull => false
  | vUndefined => false
  | vBool b => b
  | vNum n => n != 0
  | vNaN => false
  | vBigInt n => n != 0
  | vStr s => s ≠ ""
  | _ => true

-- Property access e.key: the first own property of that name, undefined
-- when absent or when the receiver has no properties
def getProp (v : Value) (key : String) : Value :=
  match v with
  | vObj ps => (((ps.find? (fun p => p.1 = key)).map (fun p => p.2)).getD vUndefined)
  | vHost _ ps => (((ps.find? (fun p => p.1 = key)).map (fun p => p.2)).getD vUndefined)
  | _ => vUndefined

-- typeof x === "string"
def typeofIsString : Value → Bool
  | vStr _ => true
  | _ => false

-- Duck-typed error detection of index.ts: e && e.stack && e.message &&
-- typeof e.stack === "string" && typeof e.message === "string"
def isError (e : Value) : Bool :=
  truthy e && truthy (getProp e "stack") && truthy (getProp e "message") &&
  typeofIsString (getProp e "stack") && typeofIsString (getProp e "message")

-- Model of String.prototype.split("\n") at the character level
def splitNlChars : List Char → List (List Char)
  | [] => [[]]
  | c :: rest =>
      let r := splitNlChars rest
      if c = '\n' then [] :: r
      else (c :: r.headD []) :: r.tail

def jsSplitNl (s : String) : List String :=
  (splitNlChars s.data).map String.mk

-- result.stack = result.stack.split("\n"); under isError the stack value
-- is a string, so the catch-all arm is unreachable
def splitStackValue : Value → Value
  | vStr s => vArr ((jsSplitNl s).map vStr)
  | v => v

-- The own properties copied by Object.getOwnPropertyNames / reduce, and by
-- the spread {...err}.  The embedding does not track enumerability; a
-- primitive spreads to no properties.
def ownProps : Value → List (String × Value)
  | vObj ps => ps
  | vHost _ ps => ps
  | _ => []

-- Convert an error-like value into a plain structure whose stack is the
-- list of its lines; any other value is shallow-copied by spread
def dumpableError (err : Value) : Value :=
  if isError err then
    vObj ((ownProps err).map (fun p =>
      if p.1 = "stack" then ("stack", splitStackValue p.2) else p))
  else
    vObj (ownProps err)

-- options?.title ? options?.title : "Object"
def titleOf (options : Option FormatOptions) : String :=
  match options with
  | some o => if o.title ≠ "" then o.title else "Object"
  | none => "Object"

def objectToHtml (cfg : Config) (assets : Assets) (obj : Value)
    (options : Option FormatOptions) : String :=
  show_object cfg assets (titleOf options) (dumpableError obj)

-- ********************************************************************
-- Configuration surface: get_depth_limit / set_depth_limit
-- (identical logic in the bfu variants and lib.js:
--  lim => depth_limit = (isNumeric(lim) && lim >= 1) ? lim : depth_limit)

/-- Argument passed to set_depth_limit: a finite JS number (any numeric,
modelled as a rational), NaN (numeric but not >= 1), or a non-numeric
value. -/
inductive JSArg where
  | num (q : Rat)
  | nan
  | other

def set_depth_limit (lim : JSArg) (depth_limit : Rat) : Rat :=
  match lim with
  | .num q => if 1 ≤ q then q else depth_limit
  | .nan => depth_limit
  | .other => depth_limit

def get_depth_limit (depth_limit : Rat) : Rat := depth_limit

-- ********************************************************************
-- Content Assembler of the older lib.js variant.  Its per-pair block
-- builder create_content_table delegates to lib.js's own recursive
-- object_to_table renderer, which no claim depends on; the dispatch under
-- verification takes that renderer as a parameter.

def lib_content_table_style : String :=
  String.intercalate " "
    [ ".bfu-table \x7b float:left; border-collapse: collapse; \x7d"
    , ".bfu-table, .bfu-th, .bfu-td \x7b border: 1px solid grey; \x7d"
    , ".bfu-th, .bfu-td \x7b padding: 3px; \x7d"
    , ".bfu-th \x7b background-color:#DDD; \x7d"
    , ".bfu-arrow-down \x7b float: left; \x7d"
    , ".bfu-arrow-right \x7b float: left; \x7d"
    , ".bfu-content \x7b display: table-row; \x7d"
    , ".bfu-header2 \x7b margin-top: 1em; \x7d" ]

def lib_create_content_table (object_to_table : Value → String → Option String)
    (hdr : String) (obj : Value) : String :=
  let obj_name := jsToLower (replace_ws hdr)
  as_div ["class=\x27bfu-content\x27"]
    (some (as_h2 ["class=\x27bfu-header2\x27"] (some hdr) ++
           (object_to_table obj obj_name).getD ""))

-- lib.js: !isNullOrUndef(nvArray) && nvArray.length > 0 ? ... : ""
def lib_create_content (object_to_table : Value → String → Option String)
    (image_src_data static_src_code : String)
    (nvArray : Option (List (String × Value))) : String :=
  match nvArray with
  | some l =>
      if l.length > 0 then
        as_div []
          (some (as_style [] (some lib_content_table_style) ++
                 as_script [] (some image_src_data) ++
                 String.join (l.map (fun el =>
                   lib_create_content_table object_to_table el.1 el.2)) ++
                 as_script ["type=\x27text/javascript\x27"] (some static_src_code)))
      else ""
  | none => ""

end BFU

namespace BFU

open Value

-- ********************************************************************
-- Classifier facts

theorem isExpandable_iff_typeOf (v : Value) :
    isExpandable v = true ↔
      (typeOf v = "Array" ∨ typeOf v = "Map" ∨ typeOf v = "Set" ∨
       typeOf v = "Object" ∨ typeOf v = "process" ∨ typeOf v = "global") := by
  unfold isExpandable expandableTypesMap
  simp only [List.find?]
  repeat' split
  all_goals simp_all [eq_comm]

theorem isFunction_iff_typeOf (v : Value) :
    isFunction v = true ↔ (typeOf v = "Function" ∨ typeOf v = "GeneratorFunction") := by
  simp [isFunction, isFn, isGenFn, isOfType]

theorem expandable_not_function {v : Value} (h : isExpandable v = true) :
    isFunction v = false := by
  rcases (isExpandable_iff_typeOf v).mp h with ht | ht | ht | ht | ht | ht <;>
    (apply Bool.eq_false_iff.mpr; intro hf;
     rcases (isFunction_iff_typeOf v).mp hf with hg | hg <;> rw [ht] at hg <;> simp at hg)

theorem sizeOf_eq_zero_of_not_expandable {v : Value} (h : isExpandable v = false) :
    sizeOf v = 0 := by
  unfold sizeOf
  unfold isExpandable at h
  cases hf : List.find? (fun e => e.1 = typeOf v) expandableTypesMap with
  | none => rfl
  | some e => rw [hf] at h; simp at h

/-- Claim C6: sizeOf returns the child count for every expandable kind
(array length, map size, set size, plain-object and process/global host
object enumerable-key count) and 0 for every non-expandable kind,
including null, undefined, NaN and symbols.  The function is total, so it
can never raise. -/
theorem claim_C6_sizeOf_total :
    (∀ es : List Value, sizeOf (vArr es) = es.length) ∧
    (∀ es : List (Value × Value), sizeOf (vMap es) = es.length) ∧
    (∀ es : List Value, sizeOf (vSet es) = es.length) ∧
    (∀ ps : List (String × Value), sizeOf (vObj ps) = ps.length) ∧
    (∀ ps : List (String × Value), sizeOf (vHost "process" ps) = ps.length) ∧
    (∀ ps : List (String × Value), sizeOf (vHost "global" ps) = ps.length) ∧
    sizeOf vNull = 0 ∧ sizeOf vUndefined = 0 ∧ sizeOf vNaN = 0 ∧
    (∀ d, sizeOf (vSymbol d) = 0) ∧
    (∀ v, isExpandable v = false → sizeOf v = 0) := by
  refine ⟨fun _ => rfl, fun _ => rfl, fun _ => rfl, fun _ => rfl, fun _ => rfl,
    fun _ => rfl, rfl, rfl, rfl, fun _ => rfl, fun v hv => sizeOf_eq_zero_of_not_expandable hv⟩

/-- Witness for C6 at concrete inputs: null is not expandable and has
size 0; a two-element array has size 2. -/
theorem claim_C6_witness :
    isExpandable vNull = false ∧ sizeOf vNull = 0 ∧
    sizeOf (vArr [vNum 1, vNum 2]) = 2 := by
  refine ⟨rfl, claim_C6_sizeOf_total.2.2.2.2.2.2.2.2.2.2 vNull rfl,
    claim_C6_sizeOf_total.1 [vNum 1, vNum 2]⟩

-- ********************************************************************
-- Configuration surface

/-- Claim C8: set_depth_limit with a non-numeric argument or a numeric
argument below 1 (zero, negatives, fractions below one, NaN) leaves the
stored limit unchanged; a numeric argument >= 1 replaces it; the getter
returns the stored limit.  All cases return normally. -/
theorem claim_C8_set_depth_limit :
    (∀ (q : Rat) (cur : Rat), 1 ≤ q → set_depth_limit (.num q) cur = q) ∧
    (∀ (q : Rat) (cur : Rat), q < 1 → set_depth_limit (.num q) cur = cur) ∧
    (∀ cur : Rat, set_depth_limit .nan cur = cur) ∧
    (∀ cur : Rat, set_depth_limit .other cur = cur) ∧
    (∀ cur : Rat, get_depth_limit cur = cur) := by
  refine ⟨fun q cur h => ?_, fun q cur h => ?_, fun _ => rfl, fun _ => rfl, fun _ => rfl⟩
  · simp [set_depth_limit, h]
  · simp [set_depth_limit, not_le.mpr h]

/-- Witness for C8: setting the limit to 5 from 3 stores 5; setting it to
0 or to 1/2 keeps 3. -/
theorem claim_C8_witness :
    ((1 : Rat) ≤ 5 ∧ set_depth_limit (.num 5) 3 = 5) ∧
    ((0 : Rat) < 1 ∧ set_depth_limit (.num 0) 3 = 3) ∧
    ((1/2 : Rat) < 1 ∧ set_depth_limit (.num (1/2)) 3 = 3) := by
  exact ⟨⟨by norm_num, claim_C8_set_depth_limit.1 5 3 (by norm_num)⟩,
         ⟨by norm_num, claim_C8_set_depth_limit.2.1 0 3 (by norm_num)⟩,
         ⟨by norm_num, claim_C8_set_depth_limit.2.1 (1/2) 3 (by norm_num)⟩⟩

-- ********************************************************************
-- Node Namer

theorem jsToLower_append (a b : String) :
    jsToLower (a ++ b) = jsToLower a ++ jsToLower b := by
  simp only [jsToLower]
  apply congrArg String.mk
  rw [String.data_append]
  exact List.map_append Char.toLower a.data b.data

theorem childId_decompose (p k : String) :
    childId p k = jsToLower p ++ "-" ++ jsToLower k := by
  unfold childId
  rw [jsToLower_append, jsToLower_append]
  norm_num [show jsToLower "-" = "-" from rfl]

/-- Claim C4 counterexample: two distinct sibling keys "A" and "a" under
the same parent get the same identifier, so the parent-id/key map is not
injective for distinct sibling keys. -/
theorem claim_C4_counterexample :
    childId "P" "A" = childId "P" "a" ∧ ("A" : String) ≠ "a" := by
  exact ⟨rfl, by decide⟩

/-- Claim C4 (amended): the child identifier is the lowercasing of the
whole string parentId ++ "-" ++ key, and the map from keys to identifiers
under a fixed parent is injective on sibling keys whose lowercasings are
distinct (not on all distinct sibling keys). -/
theorem claim_C4_childId :
    (∀ p k, childId p k = jsToLower (p ++ "-" ++ k)) ∧
    (∀ p k1 k2, jsToLower k1 ≠ jsToLower k2 → childId p k1 ≠ childId p k2) := by
  refine ⟨fun p k => rfl, fun p k1 k2 h he => h ?_⟩
  rw [childId_decompose, childId_decompose] at he
  have hd := congrArg String.data he
  simp only [String.data_append] at hd
  have := List.append_cancel_left hd
  cases h1 : jsToLower k1
  cases h2 : jsToLower k2
  rw [h1, h2] at this
  exact congrArg String.mk this

/-- Witness for C4 (amended): under parent "p" the keys "a" and "b" have
distinct lowercasings and indeed get distinct identifiers. -/
theorem claim_C4_witness :
    jsToLower "a" ≠ jsToLower "b" ∧ childId "p" "a" ≠ childId "p" "b" := by
  exact ⟨by decide, claim_C4_childId.2 "p" "a" "b" (by decide)⟩

-- ********************************************************************
-- Entry-point option independence

/-- Claim C10: objectToHtml reads only the title field of its options:
two options records agreeing on title (whatever their depthLimit,
hideFunctions and includeJavaScript fields) produce identical output for
every input value. -/
theorem claim_C10_options_title_only (cfg : Config) (assets : Assets) (obj : Value)
    (o1 o2 : FormatOptions) (h : o1.title = o2.title) :
    objectToHtml cfg assets obj (some o1) = objectToHtml cfg assets obj (some o2) := by
  simp only [objectToHtml, titleOf]
  rw [h]

/-- Witness for C10: two options with the same title but different
depthLimit, hideFunctions and includeJavaScript fields give equal output. -/
theorem claim_C10_witness :
    (FormatOptions.mk "t" true true 1).title = (FormatOptions.mk "t" false false 9).title ∧
    objectToHtml (Config.mk 3 true) (Assets.mk "" "" "") (vNum 1)
        (some (FormatOptions.mk "t" true true 1)) =
      objectToHtml (Config.mk 3 true) (Assets.mk "" "" "") (vNum 1)
        (some (FormatOptions.mk "t" false false 9)) := by
  exact ⟨rfl, claim_C10_options_title_only (Config.mk 3 true) (Assets.mk "" "" "") (vNum 1)
    (FormatOptions.mk "t" true true 1) (FormatOptions.mk "t" false false 9) rfl⟩

end BFU

namespace BFU

open Value

-- ********************************************************************
-- Row-level facts of the Table Renderer

-- A function-valued child is dropped: the row comes back null
theorem row_suppressed_function {cfg : Config} (parent : String) (key pv : Value)
    (depth : Nat) (keyOnly : Bool) (hs : cfg.suppress_fns = true)
    (hf : isFunction pv = true) :
    make_table_row_from_prop cfg parent key pv depth keyOnly = none := by
  unfold make_table_row_from_prop
  simp [hs, hf]

-- A non-expandable value renders via render_value; a function yields the
-- literal placeholder text whatever the depth and configuration
theorem render_value_vFn (cfg : Config) (src name : String) (depth : Nat) :
    render_value cfg (vFn src) name depth = some "Source code suppressed" := by
  unfold render_value
  rfl

theorem render_value_vGenFn (cfg : Config) (src name : String) (depth : Nat) :
    render_value cfg (vGenFn src) name depth = some "Source code suppressed" := by
  unfold render_value
  rfl

-- A Set element is rendered as a key-only row from its interpolated
-- string form; a function element therefore shows its source text
theorem row_keyOnly_shape (cfg : Config) (parent : String) (key : Value) (depth : Nat) :
    make_table_row_from_prop cfg parent key vNull depth true
      = some (as_tr [] (some (as_td ["class=\x27bfu-td\x27"] (jsVal key)))) := by
  unfold make_table_row_from_prop
  simp [isFunction, isFn, isGenFn, isOfType, typeOf]

theorem row_set_function_leaks (cfg : Config) (parent : String) (src : String) (depth : Nat) :
    make_table_row_from_prop cfg parent (vFn src) vNull depth true
      = some (as_tr [] (some (as_td ["class=\x27bfu-td\x27"] (some src)))) := by
  rw [row_keyOnly_shape]
  simp [jsVal, displayString, isNullOrUndef, isNull, isUndefined, isOfType, typeOf]

/-- Claim C2 counterexample: with suppression enabled (the default), a
function-typed child property does not render as "Source code
suppressed" — its whole row is dropped (the row function returns null);
and a function stored as a Set element leaks its source text into the key
column of the output. -/
theorem claim_C2_counterexample :
    make_table_row_from_prop (Config.mk 3 true) "obj" (vStr "a")
        (vFn "function f()\x7b\x7d") 0 false = none
    ∧ make_table_row_from_prop (Config.mk 3 true) "s" (vFn "SECRETSOURCE") vNull 0 true
        = some "<tr><td class=\x27bfu-td\x27>SECRETSOURCE</td></tr>" := by
  constructor
  · exact row_suppressed_function "obj" (vStr "a") (vFn "function f()\x7b\x7d") 0 false rfl rfl
  · rw [row_set_function_leaks]
    rfl

/-- Claim C2 (amended): with function suppression enabled, a value that is
itself a function (or generator function) renders via render_value as
exactly "Source code suppressed"; a function-typed child
property/element value produces no row at all (the row is null and joins
as the empty string), rather than the placeholder text; and a function
reached as a Set element (prop_value null, keyOnly) is displayed in the
key column via its interpolated string form, i.e. its source text, so
function source can still appear in the output. -/
theorem claim_C2_function_suppression :
    (∀ (cfg : Config) (src name : String) (depth : Nat),
        render_value cfg (vFn src) name depth = some "Source code suppressed")
    ∧ (∀ (cfg : Config) (src name : String) (depth : Nat),
        render_value cfg (vGenFn src) name depth = some "Source code suppressed")
    ∧ (∀ (cfg : Config) (parent : String) (key : Value) (src : String) (depth : Nat)
         (keyOnly : Bool), cfg.suppress_fns = true →
        make_table_row_from_prop cfg parent key (vFn src) depth keyOnly = none)
    ∧ (∀ (cfg : Config) (parent : String) (key : Value) (src : String) (depth : Nat)
         (keyOnly : Bool), cfg.suppress_fns = true →
        make_table_row_from_prop cfg parent key (vGenFn src) depth keyOnly = none)
    ∧ (∀ (cfg : Config) (parent src : String) (depth : Nat),
        make_table_row_from_prop cfg parent (vFn src) vNull depth true
          = some (as_tr [] (some (as_td ["class=\x27bfu-td\x27"] (some src))))) := by
  refine ⟨render_value_vFn, render_value_vGenFn,
    fun cfg parent key src depth keyOnly hs =>
      row_suppressed_function parent key (vFn src) depth keyOnly hs rfl,
    fun cfg parent key src depth keyOnly hs =>
      row_suppressed_function parent key (vGenFn src) depth keyOnly hs rfl,
    row_set_function_leaks⟩

/-- Witness for C2 (amended), discharging the suppression hypothesis at a
concrete configuration and input. -/
theorem claim_C2_witness :
    (Config.mk 3 true).suppress_fns = true
    ∧ make_table_row_from_prop (Config.mk 3 true) "p" (vStr "k") (vFn "x => x") 1 false = none := by
  exact ⟨rfl, claim_C2_function_suppression.2.2.1 (Config.mk 3 true) "p" (vStr "k")
    "x => x" 1 false rfl⟩

end BFU

namespace BFU

open Value

-- Rows collapse to the empty placeholder when the container has no
-- children, at every depth
theorem rows_empty (cfg : Config) (name : String) (v : Value) (col1 : String) (depth : Nat)
    (h : sizeOf v = 0) :
    make_table_rows_from_obj cfg name v col1 depth = empty_placeholder v := by
  unfold make_table_rows_from_obj
  simp [h]

theorem render_value_vObj_nil (cfg : Config) (name : String) (depth : Nat) :
    render_value cfg (vObj []) name depth
      = some (make_collapsible_div name "\x7b\x7d" depth) := by
  unfold render_value
  rw [rows_empty cfg name (vObj []) (columnHeadings (typeOf (vObj []))) depth rfl]
  rfl

/-- Claim C1: a child value that is expandable, has children, and is
reached at a row depth at or past the depth limit is rendered as a row
whose value cell is exactly the kind's truncated placeholder
(suppressed_placeholder: "[...]" for arrays, "\x7b...\x7d" otherwise) and
whose type cell is the plain type name with no expand/collapse control;
the right-hand side does not mention the child's contents, so the
renderer does not recurse into it and its children never appear. -/
theorem claim_C1_truncated_row (cfg : Config) (parent : String) (key pv : Value)
    (depth : Nat) (hexp : isExpandable pv = true) (hsz : 0 < sizeOf pv)
    (hd : cfg.depth_limit ≤ depth) :
    make_table_row_from_prop cfg parent key pv depth false
      = some (as_tr [] (some
          (as_td ["class=\x27bfu-td\x27"] (jsVal key) ++
           as_td ["class=\x27bfu-td\x27"] (some (typeOf pv)) ++
           as_td ["class=\x27bfu-td\x27"] (some (suppressed_placeholder pv))))) := by
  have hnf : isFunction pv = false := expandable_not_function hexp
  have hnd : ¬ depth < cfg.depth_limit := by omega
  unfold make_table_row_from_prop
  simp [hnf, hexp, hsz, hnd, String.append_assoc]

/-- Witness for C1: a one-property object child at depth 1 with depth
limit 1 renders as the truncated "\x7b...\x7d" row. -/
theorem claim_C1_witness :
    isExpandable (vObj [("x", vNum 1)]) = true
    ∧ 0 < sizeOf (vObj [("x", vNum 1)])
    ∧ (Config.mk 1 true).depth_limit ≤ 1
    ∧ make_table_row_from_prop (Config.mk 1 true) "p" (vStr "k") (vObj [("x", vNum 1)]) 1 false
        = some (as_tr [] (some
            (as_td ["class=\x27bfu-td\x27"] (jsVal (vStr "k")) ++
             as_td ["class=\x27bfu-td\x27"] (some (typeOf (vObj [("x", vNum 1)]))) ++
             as_td ["class=\x27bfu-td\x27"]
               (some (suppressed_placeholder (vObj [("x", vNum 1)])))))) := by
  exact ⟨rfl, by decide, by decide,
    claim_C1_truncated_row (Config.mk 1 true) "p" (vStr "k") (vObj [("x", vNum 1)]) 1
      rfl (by decide) (by decide)⟩

-- ********************************************************************
-- Empty containers

/-- Claim C3 counterexample: rendering the empty object does not produce
exactly the string "\x7b\x7d"; render_value wraps the placeholder in a
bfu table inside the collapsible DIV. -/
theorem claim_C3_counterexample :
    render_value (Config.mk 3 true) (vObj []) "x" 0
      = some "<div id=\"x-content\" ><table class=\x27bfu-table\x27>\x7b\x7d</table></div>"
    ∧ render_value (Config.mk 3 true) (vObj []) "x" 0 ≠ some "\x7b\x7d" := by
  rw [render_value_vObj_nil (Config.mk 3 true) "x" 0]
  exact ⟨rfl, by decide⟩

/-- Claim C3 (amended): for an expandable value with no children, the
kind's empty placeholder ("[]" for arrays, "\x7b\x7d" otherwise) is
produced exactly, at every depth, in the row's value cell and by the
row-building function; rendering such a value as a whole node, however,
wraps the placeholder in a table inside its collapsible DIV, so the
output for the top-level empty object is that wrapper rather than the
bare placeholder string. -/
theorem claim_C3_empty_placeholder :
    (∀ (cfg : Config) (parent : String) (key v : Value) (depth : Nat),
        isExpandable v = true → sizeOf v = 0 →
        make_table_row_from_prop cfg parent key v depth false
          = some (as_tr [] (some
              (as_td ["class=\x27bfu-td\x27"] (jsVal key) ++
               as_td ["class=\x27bfu-td\x27"] (some (typeOf v)) ++
               as_td ["class=\x27bfu-td\x27"] (some (empty_placeholder v))))))
    ∧ (∀ (cfg : Config) (name : String) (v : Value) (col1 : String) (depth : Nat),
        sizeOf v = 0 →
        make_table_rows_from_obj cfg name v col1 depth = empty_placeholder v)
    ∧ (∀ (cfg : Config) (name : String) (depth : Nat),
        render_value cfg (vObj []) name depth
          = some (make_collapsible_div name "\x7b\x7d" depth)) := by
  refine ⟨fun cfg parent key v depth hexp hsz => ?_,
    fun cfg name v col1 depth h => rows_empty cfg name v col1 depth h,
    render_value_vObj_nil⟩
  have hnf : isFunction v = false := expandable_not_function hexp
  unfold make_table_row_from_prop
  simp [hnf, hexp, hsz, String.append_assoc]

/-- Witness for C3 (amended): the empty array as a child renders its
value cell as exactly "[]". -/
theorem claim_C3_witness :
    isExpandable (vArr []) = true ∧ sizeOf (vArr []) = 0 ∧
    make_table_row_from_prop (Config.mk 3 true) "p" (vStr "k") (vArr []) 0 false
      = some (as_tr [] (some
          (as_td ["class=\x27bfu-td\x27"] (jsVal (vStr "k")) ++
           as_td ["class=\x27bfu-td\x27"] (some (typeOf (vArr []))) ++
           as_td ["class=\x27bfu-td\x27"] (some (empty_placeholder (vArr [])))))) := by
  exact ⟨rfl, rfl,
    claim_C3_empty_placeholder.1 (Config.mk 3 true) "p" (vStr "k") (vArr []) 0 rfl rfl⟩

end BFU

namespace BFU

open Value

-- ********************************************************************
-- Row order per kind (Table Renderer)

theorem rows_vArr (cfg : Config) (name : String) (es : List Value) (col1 : String)
    (depth : Nat) (h : es ≠ []) :
    make_table_rows_from_obj cfg name (vArr es) col1 depth
      = make_table_hdr_row col1 depth false ++
        joinRows (es.enum.map (fun p =>
          make_table_row_from_prop cfg name (vNum p.1) p.2 depth false)) := by
  have hsz : sizeOf (vArr es) > 0 := by
    show 0 < es.length
    exact List.length_pos.mpr h
  unfold make_table_rows_from_obj
  simp [hsz, isSet, isOfType, typeOf]
  rw [List.attach_map_val es.enum (fun q =>
    make_table_row_from_prop cfg name (vNum q.1) q.2 depth false)]

theorem rows_vObj (cfg : Config) (name : String) (ps : List (String × Value))
    (col1 : String) (depth : Nat) (h : ps ≠ []) :
    make_table_rows_from_obj cfg name (vObj ps) col1 depth
      = make_table_hdr_row col1 depth false ++
        joinRows ((ps.mergeSort propLe).map (fun p =>
          make_table_row_from_prop cfg name (vStr p.1) p.2 depth false)) := by
  have hsz : sizeOf (vObj ps) > 0 := by
    show 0 < ps.length
    exact List.length_pos.mpr h
  unfold make_table_rows_from_obj
  simp [hsz, isSet, isOfType, typeOf]
  rw [List.attach_map_val (ps.mergeSort propLe) (fun q =>
    make_table_row_from_prop cfg name (vStr q.1) q.2 depth false)]

theorem rows_vHost (cfg : Config) (name tag : String) (ps : List (String × Value))
    (col1 : String) (depth : Nat) (hsz : sizeOf (vHost tag ps) > 0) :
    make_table_rows_from_obj cfg name (vHost tag ps) col1 depth
      = make_table_hdr_row col1 depth (isSet (vHost tag ps)) ++
        joinRows ((ps.mergeSort propLe).map (fun p =>
          make_table_row_from_prop cfg name (vStr p.1) p.2 depth false)) := by
  unfold make_table_rows_from_obj
  simp [hsz]
  rw [List.attach_map_val (ps.mergeSort propLe) (fun q =>
    make_table_row_from_prop cfg name (vStr q.1) q.2 depth false)]

theorem rows_vMap (cfg : Config) (name : String) (es : List (Value × Value))
    (col1 : String) (depth : Nat) (h : es ≠ []) :
    make_table_rows_from_obj cfg name (vMap es) col1 depth
      = make_table_hdr_row col1 depth false ++
        joinRows (es.map (fun e =>
          make_table_row_from_prop cfg name e.1 e.2 depth false)) := by
  have hsz : sizeOf (vMap es) > 0 := by
    show 0 < es.length
    exact List.length_pos.mpr h
  unfold make_table_rows_from_obj
  simp [hsz, isSet, isOfType, typeOf]
  rw [List.attach_map_val es (fun e =>
    make_table_row_from_prop cfg name e.1 e.2 depth false)]

theorem rows_vSet (cfg : Config) (name : String) (es : List Value)
    (col1 : String) (depth : Nat) (h : es ≠ []) :
    make_table_rows_from_obj cfg name (vSet es) col1 depth
      = make_table_hdr_row col1 depth true ++
        joinRows (es.map (fun el =>
          make_table_row_from_prop cfg name el vNull depth true)) := by
  have hsz : sizeOf (vSet es) > 0 := by
    show 0 < es.length
    exact List.length_pos.mpr h
  unfold make_table_rows_from_obj
  simp [hsz, isSet, isOfType, typeOf]

theorem mergeSort_keys_sorted (ps : List (String × Value)) :
    List.Pairwise (fun a b => a.1 ≤ b.1) (ps.mergeSort propLe) := by
  have h := @List.sorted_mergeSort (String × Value)
    (fun a b => decide (a.1 ≤ b.1))
    (fun a b c hab hbc => by
      simp only [decide_eq_true_eq] at *
      exact le_trans hab hbc)
    (fun a b => by simp [le_total]) ps
  exact h.imp (fun hab => by simpa using hab)

/-- Claim C5: data rows appear in the kind-determined order: array
elements in index order (enum), plain-object and process-like host-object
properties sorted lexicographically by key (the emitted sequence is a
sorted permutation of the property list), Map entries in
iteration/insertion order, Set elements in insertion order as key-only
rows whose single populated cell is the key column.  Sorting is applied
only in the object arms, never to array indices or map/set order. -/
theorem claim_C5_row_order :
    (∀ (cfg : Config) (name : String) (es : List Value) (col1 : String) (depth : Nat),
        es ≠ [] →
        make_table_rows_from_obj cfg name (vArr es) col1 depth
          = make_table_hdr_row col1 depth false ++
            joinRows (es.enum.map (fun p =>
              make_table_row_from_prop cfg name (vNum p.1) p.2 depth false)))
    ∧ (∀ (cfg : Config) (name : String) (ps : List (String × Value)) (col1 : String)
         (depth : Nat), ps ≠ [] →
        List.Pairwise (fun a b => a.1 ≤ b.1) (ps.mergeSort propLe)
        ∧ (ps.mergeSort propLe).Perm ps
        ∧ make_table_rows_from_obj cfg name (vObj ps) col1 depth
            = make_table_hdr_row col1 depth false ++
              joinRows ((ps.mergeSort propLe).map (fun p =>
                make_table_row_from_prop cfg name (vStr p.1) p.2 depth false)))
    ∧ (∀ (cfg : Config) (name : String) (ps : List (String × Value)) (col1 : String)
         (depth : Nat), ps ≠ [] →
        make_table_rows_from_obj cfg name (vHost "process" ps) col1 depth
          = make_table_hdr_row col1 depth false ++
            joinRows ((ps.mergeSort propLe).map (fun p =>
              make_table_row_from_prop cfg name (vStr p.1) p.2 depth false)))
    ∧ (∀ (cfg : Config) (name : String) (es : List (Value × Value)) (col1 : String)
         (depth : Nat), es ≠ [] →
        make_table_rows_from_obj cfg name (vMap es) col1 depth
          = make_table_hdr_row col1 depth false ++
            joinRows (es.map (fun e =>
              make_table_row_from_prop cfg name e.1 e.2 depth false)))
    ∧ (∀ (cfg : Config) (name : String) (es : List Value) (col1 : String) (depth : Nat),
        es ≠ [] →
        make_table_rows_from_obj cfg name (vSet es) col1 depth
          = make_table_hdr_row col1 depth true ++
            joinRows (es.map (fun el =>
              make_table_row_from_prop cfg name el vNull depth true)))
    ∧ (∀ (cfg : Config) (parent : String) (key : Value) (depth : Nat),
        make_table_row_from_prop cfg parent key vNull depth true
          = some (as_tr [] (some (as_td ["class=\x27bfu-td\x27"] (jsVal key))))) := by
  refine ⟨rows_vArr, fun cfg name ps col1 depth h => ?_, fun cfg name ps col1 depth h => ?_,
    rows_vMap, rows_vSet, row_keyOnly_shape⟩
  · exact ⟨mergeSort_keys_sorted ps, List.mergeSort_perm ps _,
      rows_vObj cfg name ps col1 depth h⟩
  · have hsz : sizeOf (vHost "process" ps) > 0 := by
      show 0 < ps.length
      exact List.length_pos.mpr h
    have hx := rows_vHost cfg name "process" ps col1 depth hsz
    simpa [isSet, isOfType, typeOf] using hx

/-- Witness for C5: a one-element array emits its header and the index-0
row in order. -/
theorem claim_C5_witness :
    ([vNum 7] : List Value) ≠ []
    ∧ make_table_rows_from_obj (Config.mk 3 true) "n" (vArr [vNum 7]) "Index" 0
        = make_table_hdr_row "Index" 0 false ++
          joinRows ((List.enum [vNum 7]).map (fun p =>
            make_table_row_from_prop (Config.mk 3 true) "n" (vNum p.1) p.2 0 false)) := by
  exact ⟨List.cons_ne_nil _ _,
    claim_C5_row_order.1 (Config.mk 3 true) "n" [vNum 7] "Index" 0 (List.cons_ne_nil _ _)⟩

end BFU

namespace BFU

open Value

-- ********************************************************************
-- Content Assembler dispatch (claim on empty/absent input)

theorem create_content_nonempty (cfg : Config) (assets : Assets)
    (l : List (String × Value)) (h : l ≠ []) :
    create_content cfg assets (some l)
      = as_div []
          (some (as_style [] (some assets.bfu_style) ++
                 String.join (l.map (fun el =>
                   create_content_table cfg
                     (el.1 ++ (if cfg.suppress_fns then " (Functions suppressed)" else ""))
                     el.2)) ++
                 as_script [] (some assets.image_src_data) ++
                 as_script ["type=\x27text/javascript\x27"] (some assets.expand_collapse_js))) := by
  obtain ⟨a, as, rfl⟩ : ∃ a as, l = a :: as := by
    cases l with
    | nil => exact absurd rfl h
    | cons a as => exact ⟨a, as, rfl⟩
  have hlen : 0 < (a :: as).length := by simp
  simp only [create_content]
  rw [if_pos hlen]

/-- Claim C9 counterexample: the lib.js variant of create_content returns
the empty string — not a placeholder block — when given an empty list or
a missing/non-list argument. -/
theorem claim_C9_counterexample :
    lib_create_content (fun _ _ => none) "img" "src" (some []) = ""
    ∧ lib_create_content (fun _ _ => none) "img" "src" none = "" := by
  exact ⟨rfl, rfl⟩

/-- Claim C9 (amended): the bfu variant of create_content returns the
"Nothing to see here.  Move along..." placeholder DIV for an absent or
empty list and one titled content block per (title, value) pair for a
non-empty list; the lib.js variant, however, returns the empty string for
an absent or empty list. -/
theorem claim_C9_create_content :
    (∀ (cfg : Config) (assets : Assets),
        create_content cfg assets none
          = as_div [] (some "Nothing to see here.  Move along..."))
    ∧ (∀ (cfg : Config) (assets : Assets),
        create_content cfg assets (some [])
          = as_div [] (some "Nothing to see here.  Move along..."))
    ∧ (∀ (cfg : Config) (assets : Assets) (l : List (String × Value)), l ≠ [] →
        create_content cfg assets (some l)
          = as_div []
              (some (as_style [] (some assets.bfu_style) ++
                     String.join (l.map (fun el =>
                       create_content_table cfg
                         (el.1 ++ (if cfg.suppress_fns then " (Functions suppressed)" else ""))
                         el.2)) ++
                     as_script [] (some assets.image_src_data) ++
                     as_script ["type=\x27text/javascript\x27"] (some assets.expand_collapse_js))))
    ∧ (∀ (ob : Value → String → Option String) (imgs ss : String),
        lib_create_content ob imgs ss none = "")
    ∧ (∀ (ob : Value → String → Option String) (imgs ss : String),
        lib_create_content ob imgs ss (some []) = "") := by
  exact ⟨fun _ _ => rfl, fun _ _ => rfl, create_content_nonempty,
    fun _ _ _ => rfl, fun _ _ _ => rfl⟩

/-- Witness for C9: one (title, value) pair yields the assembled DIV with
its single content block. -/
theorem claim_C9_witness :
    ([("t", vNum 1)] : List (String × Value)) ≠ []
    ∧ create_content (Config.mk 3 true) (Assets.mk "S" "I" "E") (some [("t", vNum 1)])
        = as_div []
            (some (as_style [] (some "S") ++
                   String.join ([("t", vNum 1)].map (fun el =>
                     create_content_table (Config.mk 3 true)
                       (el.1 ++ (if (Config.mk 3 true).suppress_fns
                                 then " (Functions suppressed)" else ""))
                       el.2)) ++
                   as_script [] (some "I") ++
                   as_script ["type=\x27text/javascript\x27"] (some "E"))) := by
  exact ⟨List.cons_ne_nil _ _,
    claim_C9_create_content.2.2.1 (Config.mk 3 true) (Assets.mk "S" "I" "E")
      [("t", vNum 1)] (List.cons_ne_nil _ _)⟩

-- ********************************************************************
-- Error-object adaptation (index.ts)

theorem find?_key_of_mem_nodup {ps : List (String × Value)} {k : String} {v : Value}
    (hmem : (k, v) ∈ ps) (hnd : (ps.map Prod.fst).Nodup) :
    ps.find? (fun p => p.1 = k) = some (k, v) := by
  induction ps with
  | nil => simp at hmem
  | cons hd tl ih =>
    simp only [List.map_cons, List.nodup_cons] at hnd
    rcases List.mem_cons.mp hmem with heq | hmemtl
    · rw [← heq]
      simp [List.find?]
    · have hk : k ∈ tl.map Prod.fst := List.mem_map_of_mem Prod.fst hmemtl
      have hne : ¬ hd.1 = k := fun hh => hnd.1 (hh ▸ hk)
      simp only [List.find?]
      rw [decide_eq_false hne]
      exact ih hmemtl hnd.2

theorem key_unique_of_nodup {ps : List (String × Value)} {k : String} {v : Value}
    (hmem : (k, v) ∈ ps) (hnd : (ps.map Prod.fst).Nodup) :
    ∀ p ∈ ps, p.1 = k → p = (k, v) := by
  induction ps with
  | nil => simp
  | cons hd tl ih =>
    simp only [List.map_cons, List.nodup_cons] at hnd
    intro p hp hpk
    rcases List.mem_cons.mp hp with rfl | hptl
    · rcases List.mem_cons.mp hmem with h1 | h2
      · exact h1.symm
      · exact absurd (hpk ▸ List.mem_map_of_mem Prod.fst h2) hnd.1
    · rcases List.mem_cons.mp hmem with h1 | h2
      · exfalso
        apply hnd.1
        have : p.1 ∈ tl.map Prod.fst := List.mem_map_of_mem Prod.fst hptl
        rw [← h1]
        exact hpk ▸ this
      · exact ih h2 hnd.2 p hptl hpk

/-- Claim C7 counterexample: an input with a string message property and a
string stack property whose message is the empty string is NOT converted
(the truthiness test of isError rejects it), so its stack remains the raw
string instead of the sequence of its lines. -/
theorem claim_C7_counterexample :
    isError (vObj [("message", vStr ""), ("stack", vStr "a\nb")]) = false
    ∧ dumpableError (vObj [("message", vStr ""), ("stack", vStr "a\nb")])
        = vObj [("message", vStr ""), ("stack", vStr "a\nb")]
    ∧ getProp (dumpableError (vObj [("message", vStr ""), ("stack", vStr "a\nb")])) "stack"
        = vStr "a\nb"
    ∧ (vStr "a\nb" : Value) ≠ vArr ((jsSplitNl "a\nb").map vStr) := by
  exact ⟨rfl, rfl, rfl, fun h => Value.noConfusion h⟩

/-- Claim C7 (amended): an input whose own properties include a non-empty
string message and a non-empty string stack (truthiness requires
non-emptiness, not merely being strings) is converted by dumpableError
into a plain structure holding its own properties with the stack string
replaced by the list of its lines split on newline; objectToHtml always
hands the renderer the dumpableError conversion, never the raw input. -/
theorem claim_C7_error_adaptation (cfg : Config) (assets : Assets)
    (opts : Option FormatOptions) (ps : List (String × Value)) (m s : String)
    (hnd : (ps.map Prod.fst).Nodup)
    (hm : ("message", vStr m) ∈ ps) (hm0 : m ≠ "")
    (hs : ("stack", vStr s) ∈ ps) (hs0 : s ≠ "") :
    dumpableError (vObj ps)
      = vObj (ps.map (fun p =>
          if p.1 = "stack" then ("stack", vArr ((jsSplitNl s).map vStr)) else p))
    ∧ objectToHtml cfg assets (vObj ps) opts
      = show_object cfg assets (titleOf opts) (dumpableError (vObj ps)) := by
  constructor
  · have hfindS : ps.find? (fun p => p.1 = "stack") = some ("stack", vStr s) :=
      find?_key_of_mem_nodup hs hnd
    have hfindM : ps.find? (fun p => p.1 = "message") = some ("message", vStr m) :=
      find?_key_of_mem_nodup hm hnd
    have hisErr : isError (vObj ps) = true := by
      simp [isError, truthy, getProp, hfindS, hfindM, hm0, hs0, typeofIsString]
    unfold dumpableError
    rw [if_pos hisErr]
    simp only [ownProps]
    congr 1
    apply List.map_congr_left
    intro p hp
    by_cases hpk : p.1 = "stack"
    · rw [key_unique_of_nodup hs hnd p hp hpk]
      simp [splitStackValue]
    · simp [hpk]
  · rfl

/-- Witness for C7 (amended): a concrete error-like object with message
"boom" and a two-line stack is converted with the stack split into its
lines. -/
theorem claim_C7_witness :
    (([("message", vStr "boom"), ("stack", vStr "l1\nl2")].map Prod.fst).Nodup)
    ∧ ("message", vStr "boom") ∈ [("message", vStr "boom"), ("stack", vStr "l1\nl2")]
    ∧ ("boom" : String) ≠ ""
    ∧ ("stack", vStr "l1\nl2") ∈ [("message", vStr "boom"), ("stack", vStr "l1\nl2")]
    ∧ ("l1\nl2" : String) ≠ ""
    ∧ dumpableError (vObj [("message", vStr "boom"), ("stack", vStr "l1\nl2")])
        = vObj ([("message", vStr "boom"), ("stack", vStr "l1\nl2")].map (fun p =>
            if p.1 = "stack" then ("stack", vArr ((jsSplitNl "l1\nl2").map vStr)) else p)) := by
  refine ⟨by simp, by simp, by decide, by simp, by decide, ?_⟩
  exact (claim_C7_error_adaptation (Config.mk 3 true) (Assets.mk "" "" "") none
    [("message", vStr "boom"), ("stack", vStr "l1\nl2")] "boom" "l1\nl2"
    (by simp) (by simp) (by decide) (by simp) (by decide)).1

end BFU
